import Mathlib

/-!
Verification of the flashing-session controller in
`utils/Firmware_Updater/updater_gui.py`.

Strings are modelled as `List Char` (`Str`); bytes as `List Nat`.
Host effects (filesystem, the external `esptool` entry point) are modelled
as explicit parameters describing the behaviour the code observes.
-/

abbrev Str := List Char

def strL (s : String) : Str := s.toList

/-- Line splitter for the `while "\n" in self._buf` loop of `QueueWriter.write`:
returns the complete (newline-terminated, newline stripped) segments in order,
and the trailing segment after the last newline. -/
def consBuf (c : Char) : List Str × Str → List Str × Str
  | ([], r) => ([], c :: r)
  | (l :: ls, r) => ((c :: l) :: ls, r)

def splitBuf : Str → List Str × Str
  | [] => ([], [])
  | c :: cs =>
    if c = '\n' then ([] :: (splitBuf cs).1, (splitBuf cs).2)
    else consBuf c (splitBuf cs)

/-- Rejoin newline-terminated segments: each segment is followed by the
newline that terminated it in the original stream. -/
def joinNL : List Str → Str
  | [] => []
  | l :: ls => l ++ '\n' :: joinNL ls

/-- `QueueWriter` (updater_gui.py lines 100-117): `q` is the ordered list of
segments put to the queue so far, `buf` the buffered trailing segment. -/
structure QueueWriter where
  q : List Str
  buf : Str
deriving DecidableEq

def QueueWriter.init : QueueWriter := ⟨[], []⟩

/-- `QueueWriter.write`: `if not s: return 0`; otherwise append to the buffer
and emit every newline-terminated segment. -/
def QueueWriter.write (w : QueueWriter) (s : Str) : QueueWriter :=
  if s = [] then w
  else ⟨w.q ++ (splitBuf (w.buf ++ s)).1, (splitBuf (w.buf ++ s)).2⟩

/-- `QueueWriter.flush`: `if self._buf: self.q.put(self._buf); self._buf = ""`. -/
def QueueWriter.flush (w : QueueWriter) : QueueWriter :=
  if w.buf = [] then w else ⟨w.q ++ [w.buf], []⟩

/-- Payload of the `SystemExit` raised by `esptool.main`: `se.code` is `None`,
an `int`, or some other value. -/
inductive ExitPayload where
  | noCode
  | intCode (n : Int)
  | otherPayload
deriving DecidableEq

/-- How one invocation of `esptool.main(args)` behaves, as observed by
`run_esptool_inproc`: it performs some writes to the redirected streams and
then returns normally, raises `SystemExit`, or raises another exception. -/
inductive ToolOutcome where
  | normal
  | sysExit (p : ExitPayload)
  | exc (msg : Str)
deriving DecidableEq

/-- A whole invocation: either `import esptool` fails, or the tool runs with
the given writes and outcome. -/
inductive ToolBehavior where
  | importFail (msg : Str)
  | run (writes : List Str) (outcome : ToolOutcome)
deriving DecidableEq

def errImportLine (msg : Str) : Str := strL "ERROR: esptool import failed: " ++ msg

def errRuntimeLine (msg : Str) : Str := strL "ERROR: esptool runtime exception: " ++ msg

/-- `run_esptool_inproc`'s `SystemExit` normalization:
`None → 0`, `int → itself`, anything else `→ 1`. -/
def normalizeExit : ExitPayload → Int
  | .noCode => 0
  | .intCode n => n
  | .otherPayload => 1

/-- Result of `run_esptool_inproc`: the segments put to `out_q` during the
call (in order), the characters still buffered in the writer when the
function returned (never enqueued), and the returned code. -/
structure InvocResult where
  q : List Str
  pending : Str
  rc : Int
deriving DecidableEq

/-- `run_esptool_inproc` (updater_gui.py lines 120-146). On import failure it
puts one diagnostic line and returns 1. Otherwise the tool's writes stream
through a fresh `QueueWriter`; on normal return and on `SystemExit` the
writer is flushed; on any other exception the inner `try` does not catch it,
so the writer is NOT flushed and only the diagnostic line is enqueued. -/
def run_esptool_inproc : ToolBehavior → InvocResult
  | .importFail msg => ⟨[errImportLine msg], [], 1⟩
  | .run writes outcome =>
    let w := List.foldl QueueWriter.write QueueWriter.init writes
    match outcome with
    | .normal => ⟨w.flush.q, w.flush.buf, 0⟩
    | .sysExit p => ⟨w.flush.q, w.flush.buf, normalizeExit p⟩
    | .exc msg => ⟨w.q ++ [errRuntimeLine msg], w.buf, 1⟩

def lowerChar (c : Char) : Char :=
  if 65 ≤ c.toNat ∧ c.toNat ≤ 90 then Char.ofNat (c.toNat + 32) else c

/-- `str.lower()` restricted to its ASCII action (the inputs classified here
are ASCII tool output). -/
def lowerS (s : Str) : Str := s.map lowerChar

/-- ASCII whitespace, the `\s` class of `PERCENT_RE` on the tool's output. -/
def isSpaceC (c : Char) : Bool :=
  c = ' ' || c = '\t' || c = '\n' || c = '\r' || c = Char.ofNat 11 || c = Char.ofNat 12

/-- `str.strip()` restricted to ASCII whitespace. -/
def stripS (s : Str) : Str := ((s.dropWhile isSpaceC).reverse.dropWhile isSpaceC).reverse

/-- `str.rstrip("\r")`. -/
def rstripCR (s : Str) : Str := (s.reverse.dropWhile (fun c => c = '\r')).reverse

def digitsVal (ds : Str) : Nat := ds.foldl (fun a c => a * 10 + (c.toNat - 48)) 0

/-- Matching the tail of `PERCENT_RE` = `\((\d+)\s*%\)` once a `(` has been
consumed: one or more digits, optional whitespace, then `%)`. -/
def matchAfterParen (s : Str) : Option Nat :=
  match s.takeWhile Char.isDigit with
  | [] => none
  | ds =>
    match (s.dropWhile Char.isDigit).dropWhile isSpaceC with
    | '%' :: ')' :: _ => some (digitsVal ds)
    | _ => none

/-- `PERCENT_RE.search(line)`: leftmost match of `\((\d+)\s*%\)`, returning
the digit group's value. -/
def percentSearch : Str → Option Nat
  | [] => none
  | c :: cs =>
    if c = '(' then
      match matchAfterParen cs with
      | some n => some n
      | none => percentSearch cs
    else percentSearch cs

/-- `pct = max(0, min(100, pct))`. -/
def clampPct (n : Nat) : Nat := max 0 (min 100 n)

/-- Bool test that `pat` starts `s`. -/
def leadsWith {α : Type} [BEq α] : List α → List α → Bool
  | [], _ => true
  | _ :: _, [] => false
  | a :: pat, b :: s => a == b && leadsWith pat s

/-- Python's `pat in s` substring test. -/
def isSub {α : Type} [BEq α] (pat : List α) : List α → Bool
  | [] => pat.isEmpty
  | b :: s => leadsWith pat (b :: s) || isSub pat s

/-- The ttk progress bar's `mode` option. -/
inductive PMode where
  | determinate
  | indeterminate
deriving DecidableEq

/-- The foreground (UI) state touched by the polling loop: the log chunks
appended by `append_log`, `status_var`, the progress bar's value and mode,
`_saw_percent`, and the Update button's enabled flag. -/
structure AppState where
  log : List Str
  status : Str
  percentVal : Nat
  mode : PMode
  sawPercent : Bool
  updateBtnEnabled : Bool
deriving DecidableEq

/-- `_set_percent`: if the bar is not determinate, stop it and switch it to
determinate; then set its value. -/
def setPercent (st : AppState) (pct : Nat) : AppState :=
  { st with mode := PMode.determinate, percentVal := pct }

/-- The percentage half of `_handle_progress_and_status`: on a `PERCENT_RE`
match, clamp the digits into [0,100], set `_saw_percent`, display it. -/
def handlePercent (st : AppState) (line : Str) : AppState :=
  match percentSearch line with
  | some n => setPercent { st with sawPercent := true } (clampPct n)
  | none => st

/-- The status half of `_handle_progress_and_status`: case-insensitive
substring match on the line, first match wins. -/
def classify (st : AppState) (line : Str) : AppState :=
  if isSub (strL "connecting") (lowerS line) then
    { st with status := strL "Connecting…" }
  else if isSub (strL "writing at") (lowerS line) || isSub (strL "wrote") (lowerS line) then
    { st with status := strL "Writing firmware…" }
  else if isSub (strL "hash of data verified") (lowerS line)
      || isSub (strL "verified") (lowerS line) then
    { st with status := strL "Verifying…" }
  else st

/-- `_handle_progress_and_status`: percentage extraction, then classification. -/
def handleLine (st : AppState) (line : Str) : AppState :=
  classify (handlePercent st line) line

/-- `_finish_ok`: determinate bar at 100, button re-enabled, status and log
banner for success. -/
def finishOk (st : AppState) : AppState :=
  { st with mode := PMode.determinate, percentVal := 100,
            updateBtnEnabled := true,
            status := strL "Update complete.",
            log := st.log ++ [strL "\n=== UPDATE COMPLETE ===\n"] }

/-- `_finish_fail`: determinate bar reset to 0, button re-enabled, status and
log banner for failure. -/
def finishFail (st : AppState) : AppState :=
  { st with mode := PMode.determinate, percentVal := 0,
            updateBtnEnabled := true,
            status := strL "Update failed.",
            log := st.log ++ [strL "\n=== UPDATE FAILED ===\n"] }

/-- A message drained from the queue by `_pump_queue`: either a text line or
the `("__DONE__", rc)` terminal marker. -/
inductive Msg where
  | line (s : Str)
  | done (rc : Int)
deriving DecidableEq

/-- One drained message in `_pump_queue`: the terminal marker finishes the
session by its code; a text line is stripped of trailing `\r`, skipped if
empty, otherwise logged and classified. -/
def pumpMsg (st : AppState) : Msg → AppState
  | .done rc => if rc = 0 then finishOk st else finishFail st
  | .line s =>
    if rstripCR s = [] then st
    else handleLine { st with log := st.log ++ [rstripCR s ++ ['\n']] } (rstripCR s)

/-- Draining a burst of available messages: `_pump_queue` loops until the
queue is empty, and returns as soon as the terminal marker is seen. -/
def drain (st : AppState) : List Msg → AppState
  | [] => st
  | Msg.done rc :: _ => pumpMsg st (Msg.done rc)
  | Msg.line s :: ms => drain (pumpMsg st (Msg.line s)) ms

/-- The foreground state right after `start_update` has launched the worker:
empty session log, indeterminate busy bar, `_saw_percent = False`. -/
def initState : AppState :=
  { log := [], status := strL "Updating… do not unplug the device.",
    percentVal := 0, mode := PMode.indeterminate, sawPercent := false,
    updateBtnEnabled := false }

/-- What the host filesystem shows for one path: missing, a readable file
with the given bytes, or a file whose stat succeeds (with the given size)
but whose read raises an I/O error. -/
inductive FsEntry where
  | absent
  | file (bytes : List Nat)
  | readError (size : Nat)

/-- `bytes.lower()` on one byte: ASCII uppercase letters map down. -/
def byteLower (b : Nat) : Nat := if 65 ≤ b ∧ b ≤ 90 then b + 32 else b

def strBytes (s : String) : List Nat := s.toList.map Char.toNat

/-- `Path.exists()`. -/
def pathExists (fs : Str → FsEntry) (p : Str) : Bool :=
  match fs p with
  | FsEntry.absent => false
  | _ => true

/-- `looks_like_binary` (updater_gui.py lines 78-87): false when the path is
missing or the size is under 1024; false when the first 256 bytes, lowered,
contain an HTML marker; false when reading raises (the `except` swallows it);
true otherwise. -/
def looks_like_binary (fs : Str → FsEntry) (p : Str) : Bool :=
  match fs p with
  | FsEntry.absent => false
  | FsEntry.readError _ => false
  | FsEntry.file bytes =>
    if bytes.length < 1024 then false
    else if isSub (strBytes "<html") ((bytes.take 256).map byteLower)
        || isSub (strBytes "<!doctype html") ((bytes.take 256).map byteLower) then false
    else true

/-- The inputs `validate_inputs` / `start_update` read: whether
`esptool_available()` holds, the two entry variables, and the host's
filesystem and path functions (`expanduser`, `resolve`). -/
structure UiEnv where
  esptool : Bool
  portVar : Str
  fwVar : Str
  expanduser : Str → Str
  resolve : Str → Str
  fs : Str → FsEntry

def msgDeps : Str :=
  strL "This app is missing bundled dependencies (esptool/pyserial).\n\nThis is a build issue — please download the correct updater."

def msgNoPort : Str := strL "No serial port selected."

def msgNoFw : Str := strL "No firmware file selected."

def msgFwNotFound (p : Str) : Str := strL "Firmware not found:\n" ++ p

def msgFwNotBinary (p : Str) : Str :=
  strL "File doesn’t look like a valid firmware binary:\n" ++ p

/-- `validate_inputs` (updater_gui.py lines 305-326): dependency probe, then
stripped port, then stripped firmware path, then existence, then the binary
sanity check; first failure returns `(False, reason)`. -/
def validate_inputs (e : UiEnv) : Bool × Str :=
  if e.esptool = false then (false, msgDeps)
  else if stripS e.portVar = [] then (false, msgNoPort)
  else if stripS e.fwVar = [] then (false, msgNoFw)
  else if pathExists e.fs (e.expanduser (stripS e.fwVar)) = false then
    (false, msgFwNotFound (e.expanduser (stripS e.fwVar)))
  else if looks_like_binary e.fs (e.expanduser (stripS e.fwVar)) = false then
    (false, msgFwNotBinary (e.expanduser (stripS e.fwVar)))
  else (true, [])

/-- What `start_update` does: on validation failure it shows the reason and
returns — no queue is created and no worker thread is started; on success it
creates the queue and spawns the single worker with these args. -/
inductive StartResult where
  | rejected (reason : Str)
  | started (args : List Str)

def buildArgs (port fw : Str) : List Str :=
  [strL "--chip", strL "esp32", strL "-p", port, strL "-b", strL "460800",
   strL "write_flash", strL "0x0000", fw]

/-- `start_update` (updater_gui.py lines 329-364), up to spawning the worker. -/
def start_update (e : UiEnv) : StartResult :=
  if (validate_inputs e).1 = false then StartResult.rejected (validate_inputs e).2
  else StartResult.started
    (buildArgs (stripS e.portVar) (e.resolve (e.expanduser e.fwVar)))

/-- A 2000-byte file that starts with an HTML doctype. -/
def doctypeFile : List Nat := strBytes "<!DOCTYPE html>" ++ List.replicate 1985 0

/-- A 2000-byte file whose first 256 bytes contain no HTML marker. -/
def cleanFile : List Nat := List.replicate 2000 97

/-- An input environment with the dependency present but no port selected. -/
def envNoPort : UiEnv :=
  { esptool := true, portVar := [], fwVar := strL "fw.bin",
    expanduser := id, resolve := id, fs := fun _ => FsEntry.absent }

theorem joinNL_append (a b : List Str) : joinNL (a ++ b) = joinNL a ++ joinNL b := by
  induction a with
  | nil => rfl
  | cons l ls ih => simp [joinNL, ih]

theorem joinNL_consBuf (c : Char) (p : List Str × Str) :
    joinNL (consBuf c p).1 ++ (consBuf c p).2 = c :: (joinNL p.1 ++ p.2) := by
  obtain ⟨ls, r⟩ := p
  cases ls with
  | nil => simp [consBuf, joinNL]
  | cons l ls => simp [consBuf, joinNL]

theorem splitBuf_recon (s : Str) : joinNL (splitBuf s).1 ++ (splitBuf s).2 = s := by
  induction s with
  | nil => rfl
  | cons c cs ih =>
    by_cases hc : c = '\n'
    · subst hc
      simp [splitBuf, joinNL, ih]
    · simp only [splitBuf, if_neg hc]
      rw [joinNL_consBuf, ih]

theorem splitBuf_no_nl (s : Str) (h : '\n' ∉ s) : splitBuf s = ([], s) := by
  induction s with
  | nil => rfl
  | cons c cs ih =>
    have hc : ¬ c = '\n' := by
      intro e
      exact h (by simp [e])
    have hcs : '\n' ∉ cs := fun m => h (List.mem_cons_of_mem _ m)
    simp [splitBuf, hc, ih hcs, consBuf]

theorem splitBuf_snd_no_nl (s : Str) : '\n' ∉ (splitBuf s).2 := by
  induction s with
  | nil => simp [splitBuf]
  | cons c cs ih =>
    by_cases hc : c = '\n'
    · subst hc
      simpa [splitBuf] using ih
    · simp only [splitBuf, if_neg hc]
      rcases hp : splitBuf cs with ⟨ls, r⟩
      rw [hp] at ih
      cases ls with
      | nil =>
        simp only [consBuf, List.mem_cons]
        rintro (e | m)
        · exact hc e.symm
        · exact ih m
      | cons l ls => simpa [consBuf] using ih

theorem write_recon (w : QueueWriter) (s : Str) :
    joinNL (w.write s).q ++ (w.write s).buf = joinNL w.q ++ w.buf ++ s := by
  by_cases hs : s = []
  · simp [QueueWriter.write, hs]
  · simp only [QueueWriter.write, if_neg hs]
    rw [joinNL_append, List.append_assoc, splitBuf_recon, ← List.append_assoc]

theorem write_buf_no_nl (w : QueueWriter) (s : Str) (h : '\n' ∉ w.buf) :
    '\n' ∉ (w.write s).buf := by
  by_cases hs : s = []
  · simpa [QueueWriter.write, hs] using h
  · simp only [QueueWriter.write, if_neg hs]
    exact splitBuf_snd_no_nl _

theorem foldl_write_recon (ws : List Str) (w : QueueWriter) :
    joinNL (List.foldl QueueWriter.write w ws).q ++ (List.foldl QueueWriter.write w ws).buf
      = joinNL w.q ++ w.buf ++ ws.flatten := by
  induction ws generalizing w with
  | nil => simp
  | cons s ss ih =>
    simp only [List.foldl_cons, List.flatten_cons]
    rw [ih, write_recon, List.append_assoc]

theorem foldl_write_buf_no_nl (ws : List Str) (w : QueueWriter) (h : '\n' ∉ w.buf) :
    '\n' ∉ (List.foldl QueueWriter.write w ws).buf := by
  induction ws generalizing w with
  | nil => simpa
  | cons s ss ih => exact ih _ (write_buf_no_nl _ _ h)

theorem flush_q (w : QueueWriter) :
    w.flush.q = w.q ++ (if w.buf = [] then [] else [w.buf]) := by
  by_cases h : w.buf = [] <;> simp [QueueWriter.flush, h]

theorem flush_buf (w : QueueWriter) : w.flush.buf = [] := by
  by_cases h : w.buf = [] <;> simp [QueueWriter.flush, h]

theorem leadsWith_self_append {α : Type} [BEq α] [LawfulBEq α] (pat t : List α) :
    leadsWith pat (pat ++ t) = true := by
  induction pat with
  | nil => rfl
  | cons a pat ih => simp [leadsWith, ih]

theorem isSub_self_append {α : Type} [BEq α] [LawfulBEq α] (pat t : List α) (h : pat ≠ []) :
    isSub pat (pat ++ t) = true := by
  cases pat with
  | nil => exact absurd rfl h
  | cons a pr =>
    have h1 := leadsWith_self_append (a :: pr) t
    rw [List.cons_append] at h1
    rw [List.cons_append]
    simp [isSub, h1]

theorem isSub_head_not_mem {α : Type} [BEq α] [LawfulBEq α] (a : α) (pat s : List α)
    (h : a ∉ s) : isSub (a :: pat) s = false := by
  induction s with
  | nil => rfl
  | cons b s ih =>
    have hab : a ≠ b := fun e => h (by simp [e])
    have hs : a ∉ s := fun m => h (List.mem_cons_of_mem _ m)
    simp [isSub, leadsWith, ih hs, beq_false_of_ne hab]

theorem looks_like_binary_file (fs : Str → FsEntry) (p : Str) (bytes : List Nat)
    (h : fs p = FsEntry.file bytes) :
    looks_like_binary fs p =
      (if bytes.length < 1024 then false
       else if isSub (strBytes "<html") ((bytes.take 256).map byteLower)
           || isSub (strBytes "<!doctype html") ((bytes.take 256).map byteLower) then false
       else true) := by
  unfold looks_like_binary
  rw [h]

theorem doctype_len : doctypeFile.length = 2000 := by
  have h15 : (strBytes "<!DOCTYPE html>").length = 15 := by decide
  show (strBytes "<!DOCTYPE html>" ++ List.replicate 1985 0).length = 2000
  rw [List.length_append, h15, List.length_replicate]

theorem doctype_head :
    (doctypeFile.take 256).map byteLower
      = strBytes "<!doctype html" ++ (62 :: List.replicate 241 0) := by
  have h15 : (strBytes "<!DOCTYPE html>").length = 15 := by decide
  show ((strBytes "<!DOCTYPE html>" ++ List.replicate 1985 0).take 256).map byteLower = _
  rw [List.take_append_eq_append_take, List.take_of_length_le (by rw [h15]; norm_num), h15,
    List.take_replicate]
  norm_num
  rw [show List.map byteLower (strBytes "<!DOCTYPE html>")
        = strBytes "<!doctype html" ++ [62] from by decide,
    show byteLower 0 = 0 from by decide, List.append_assoc]
  rfl

theorem doctype_verdict : looks_like_binary (fun _ => FsEntry.file doctypeFile) [] = false := by
  rw [looks_like_binary_file _ _ doctypeFile rfl, doctype_len, doctype_head]
  rw [isSub_self_append (strBytes "<!doctype html") (62 :: List.replicate 241 0) (by decide)]
  norm_num

theorem clean_len : cleanFile.length = 2000 := by
  show (List.replicate 2000 97).length = 2000
  rw [List.length_replicate]

theorem clean_head : (cleanFile.take 256).map byteLower = List.replicate 256 97 := by
  show ((List.replicate 2000 97).take 256).map byteLower = _
  rw [List.take_replicate, List.map_replicate, show byteLower 97 = 97 from by decide]
  norm_num

theorem clean_verdict : looks_like_binary (fun _ => FsEntry.file cleanFile) [] = true := by
  have h60 : (60 : Nat) ∉ List.replicate 256 (97 : Nat) := by
    intro hm
    rw [List.mem_replicate] at hm
    exact absurd hm.2 (by norm_num)
  rw [looks_like_binary_file _ _ cleanFile rfl, clean_len, clean_head]
  rw [show strBytes "<html" = 60 :: strBytes "html" from by decide,
    show strBytes "<!doctype html" = 60 :: strBytes "!doctype html" from by decide,
    isSub_head_not_mem 60 _ _ h60, isSub_head_not_mem 60 _ _ h60]
  norm_num

theorem handlePercent_status (st : AppState) (line : Str) :
    (handlePercent st line).status = st.status := by
  unfold handlePercent
  cases percentSearch line <;> simp [setPercent]

theorem handlePercent_log (st : AppState) (line : Str) :
    (handlePercent st line).log = st.log := by
  unfold handlePercent
  cases percentSearch line <;> simp [setPercent]

theorem classify_mode (st : AppState) (line : Str) : (classify st line).mode = st.mode := by
  unfold classify
  split
  · rfl
  split
  · rfl
  split
  · rfl
  · rfl

theorem handlePercent_mode (st : AppState) (line : Str) (h : st.mode = PMode.determinate) :
    (handlePercent st line).mode = PMode.determinate := by
  unfold handlePercent
  cases percentSearch line <;> simp [setPercent, h]

theorem handleLine_mode (st : AppState) (line : Str) (h : st.mode = PMode.determinate) :
    (handleLine st line).mode = PMode.determinate := by
  unfold handleLine
  rw [classify_mode]
  exact handlePercent_mode st line h

theorem pumpMsg_mode (st : AppState) (m : Msg) (h : st.mode = PMode.determinate) :
    (pumpMsg st m).mode = PMode.determinate := by
  cases m with
  | done rc =>
    simp only [pumpMsg]
    split <;> simp [finishOk, finishFail]
  | line s =>
    simp only [pumpMsg]
    split
    · exact h
    · exact handleLine_mode _ _ h

/-- Claim C1 (Output Sink reconstruction): for every finite sequence of write
calls on a fresh `QueueWriter`, the segments emitted to the queue, rejoined
with the newline that terminated each, plus the buffered remainder, equal the
concatenation of all strings written; the remainder holds no newline; one
`flush` then emits exactly the nonempty remainder and empties the buffer; and
a write containing zero newlines causes zero emissions. -/
theorem output_sink_reconstruction :
    (∀ ws : List Str,
        joinNL (List.foldl QueueWriter.write QueueWriter.init ws).q
            ++ (List.foldl QueueWriter.write QueueWriter.init ws).buf = ws.flatten
      ∧ (List.foldl QueueWriter.write QueueWriter.init ws).flush.q
          = (List.foldl QueueWriter.write QueueWriter.init ws).q
            ++ (if (List.foldl QueueWriter.write QueueWriter.init ws).buf = [] then []
                else [(List.foldl QueueWriter.write QueueWriter.init ws).buf])
      ∧ (List.foldl QueueWriter.write QueueWriter.init ws).flush.buf = []
      ∧ '\n' ∉ (List.foldl QueueWriter.write QueueWriter.init ws).buf)
  ∧ (∀ (w : QueueWriter) (s : Str), '\n' ∉ w.buf → '\n' ∉ s → (w.write s).q = w.q) := by
  constructor
  · intro ws
    refine ⟨?_, flush_q _, flush_buf _,
      foldl_write_buf_no_nl ws QueueWriter.init (by simp [QueueWriter.init])⟩
    have h := foldl_write_recon ws QueueWriter.init
    simpa [QueueWriter.init, joinNL] using h
  · intro w s hb hs
    by_cases h0 : s = []
    · simp [QueueWriter.write, h0]
    · have hns : '\n' ∉ w.buf ++ s := by
        intro m
        rcases List.mem_append.mp m with m | m
        · exact hb m
        · exact hs m
      simp [QueueWriter.write, h0, splitBuf_no_nl _ hns]

theorem output_sink_reconstruction_witness :
    ('\n' ∉ QueueWriter.init.buf ∧ '\n' ∉ strL "abc")
  ∧ (QueueWriter.write QueueWriter.init (strL "abc")).q = [] :=
  ⟨⟨by decide, by decide⟩,
    output_sink_reconstruction.2 QueueWriter.init (strL "abc") (by decide) (by decide)⟩

/-- Claim C2 (Flasher Invocation result-code contract): normal return gives
code 0; a failed `import esptool` puts exactly one "ERROR:"-led line and
returns the nonzero code 1 without running the tool; a `SystemExit` payload
is normalized as None to 0, an integer to itself, anything else to 1; any
other exception is caught, appended to the queue as an "ERROR:"-led
diagnostic line, and gives the nonzero code 1. -/
theorem flasher_result_code_contract :
    (∀ writes : List Str,
        (run_esptool_inproc (ToolBehavior.run writes ToolOutcome.normal)).rc = 0)
  ∧ (∀ msg : Str,
        (run_esptool_inproc (ToolBehavior.importFail msg)).q = [errImportLine msg]
      ∧ (∃ t, errImportLine msg = strL "ERROR:" ++ t)
      ∧ (run_esptool_inproc (ToolBehavior.importFail msg)).rc = 1
      ∧ (run_esptool_inproc (ToolBehavior.importFail msg)).rc ≠ 0)
  ∧ (∀ writes : List Str,
        (run_esptool_inproc
            (ToolBehavior.run writes (ToolOutcome.sysExit ExitPayload.noCode))).rc = 0
      ∧ (∀ n : Int,
          (run_esptool_inproc
              (ToolBehavior.run writes (ToolOutcome.sysExit (ExitPayload.intCode n)))).rc = n)
      ∧ (run_esptool_inproc
            (ToolBehavior.run writes (ToolOutcome.sysExit ExitPayload.otherPayload))).rc = 1)
  ∧ (∀ (writes : List Str) (msg : Str),
        (run_esptool_inproc (ToolBehavior.run writes (ToolOutcome.exc msg))).q
          = (List.foldl QueueWriter.write QueueWriter.init writes).q ++ [errRuntimeLine msg]
      ∧ (∃ t, errRuntimeLine msg = strL "ERROR:" ++ t)
      ∧ (run_esptool_inproc (ToolBehavior.run writes (ToolOutcome.exc msg))).rc = 1
      ∧ (run_esptool_inproc (ToolBehavior.run writes (ToolOutcome.exc msg))).rc ≠ 0) := by
  have heImp : strL "ERROR:" ++ strL " esptool import failed: "
      = strL "ERROR: esptool import failed: " := by decide
  have heRun : strL "ERROR:" ++ strL " esptool runtime exception: "
      = strL "ERROR: esptool runtime exception: " := by decide
  refine ⟨fun writes => rfl, fun msg => ⟨rfl, ?_, rfl, by exact one_ne_zero⟩,
    fun writes => ⟨rfl, fun n => rfl, rfl⟩,
    fun writes msg => ⟨rfl, ?_, rfl, by exact one_ne_zero⟩⟩
  · exact ⟨strL " esptool import failed: " ++ msg,
      by simp only [errImportLine, ← List.append_assoc, heImp]⟩
  · exact ⟨strL " esptool runtime exception: " ++ msg,
      by simp only [errRuntimeLine, ← List.append_assoc, heRun]⟩

/-- Claim C3 (Terminal transition): draining the terminal marker with code 0
finishes the session as succeeded and forces the displayed percentage to
100; any nonzero code finishes it as failed and forces the percentage to 0,
whatever the state held before the marker. -/
theorem terminal_transition (st : AppState) (rc : Int) :
    (pumpMsg st (Msg.done rc)).percentVal = (if rc = 0 then 100 else 0)
  ∧ (pumpMsg st (Msg.done rc)).status
      = (if rc = 0 then strL "Update complete." else strL "Update failed.")
  ∧ (pumpMsg st (Msg.done rc)).mode = PMode.determinate := by
  by_cases h : rc = 0 <;> simp [pumpMsg, h, finishOk, finishFail]

/-- Claim C4 counterexample: when the tool writes the unterminated segment
"Z" and then raises a runtime (non-SystemExit) exception, the function
returns with that segment still pending — it was written to the sink but is
never emitted to the queue, which holds only the diagnostic line (a line not
containing the written character). -/
theorem end_of_invocation_cex :
    (run_esptool_inproc
        (ToolBehavior.run [strL "Z"] (ToolOutcome.exc (strL "boom")))).pending = strL "Z"
  ∧ (run_esptool_inproc
        (ToolBehavior.run [strL "Z"] (ToolOutcome.exc (strL "boom")))).pending ≠ []
  ∧ ∀ l ∈ (run_esptool_inproc
        (ToolBehavior.run [strL "Z"] (ToolOutcome.exc (strL "boom")))).q, 'Z' ∉ l :=
  ⟨by decide, by decide, by decide⟩

/-- Claim C4 amended: by the time `run_esptool_inproc` returns, the final
unterminated segment has been flushed on the import-failure, normal-return
and abrupt-termination (SystemExit) paths; on the runtime-exception path the
complete lines written are all emitted and the diagnostic line follows them,
but the final unterminated segment stays pending (it is dropped, not
flushed). -/
theorem end_of_invocation_flush_amended :
    (∀ msg, (run_esptool_inproc (ToolBehavior.importFail msg)).pending = [])
  ∧ (∀ writes,
      (run_esptool_inproc (ToolBehavior.run writes ToolOutcome.normal)).pending = [])
  ∧ (∀ writes p,
      (run_esptool_inproc (ToolBehavior.run writes (ToolOutcome.sysExit p))).pending = [])
  ∧ (∀ writes msg,
      (run_esptool_inproc (ToolBehavior.run writes (ToolOutcome.exc msg))).q
        = (List.foldl QueueWriter.write QueueWriter.init writes).q ++ [errRuntimeLine msg]
      ∧ (run_esptool_inproc (ToolBehavior.run writes (ToolOutcome.exc msg))).pending
        = (List.foldl QueueWriter.write QueueWriter.init writes).buf) :=
  ⟨fun _ => rfl, fun _ => flush_buf _, fun _ _ => flush_buf _, fun _ _ => ⟨rfl, rfl⟩⟩

/-- Claim C5 (Phase classification): the drained line's status phase follows
a case-insensitive substring match with first-match priority — "connecting"
gives Connecting; otherwise "writing at" or "wrote" gives Writing; otherwise
"hash of data verified" or "verified" gives Verifying; no match leaves the
phase unchanged — and this holds whether or not the line also carries a
percentage (the handler is total: it never raises). -/
theorem phase_classification (st : AppState) (line : Str) :
    (isSub (strL "connecting") (lowerS line) = true →
        (handleLine st line).status = strL "Connecting…")
  ∧ (isSub (strL "connecting") (lowerS line) = false →
      (isSub (strL "writing at") (lowerS line) || isSub (strL "wrote") (lowerS line)) = true →
        (handleLine st line).status = strL "Writing firmware…")
  ∧ (isSub (strL "connecting") (lowerS line) = false →
      (isSub (strL "writing at") (lowerS line) || isSub (strL "wrote") (lowerS line)) = false →
      (isSub (strL "hash of data verified") (lowerS line)
        || isSub (strL "verified") (lowerS line)) = true →
        (handleLine st line).status = strL "Verifying…")
  ∧ (isSub (strL "connecting") (lowerS line) = false →
      (isSub (strL "writing at") (lowerS line) || isSub (strL "wrote") (lowerS line)) = false →
      (isSub (strL "hash of data verified") (lowerS line)
        || isSub (strL "verified") (lowerS line)) = false →
        (handleLine st line).status = st.status) := by
  unfold handleLine
  refine ⟨fun h1 => ?_, fun h1 h2 => ?_, fun h1 h2 h3 => ?_, fun h1 h2 h3 => ?_⟩
  · simp [classify, h1]
  · simp [classify, h1, h2]
  · simp [classify, h1, h2, h3]
  · simp [classify, h1, h2, h3, handlePercent_status]

theorem phase_classification_witness :
    isSub (strL "connecting") (lowerS (strL "Connecting........_____.")) = true
  ∧ (handleLine initState (strL "Connecting........_____.")).status = strL "Connecting…" :=
  ⟨by decide, (phase_classification initState (strL "Connecting........_____.")).1 (by decide)⟩

/-- Claim C6 (Percentage extraction and clamping): the parenthesized
percentage pattern on `"Writing at 0x00010000... (37 %)"` extracts 37 and
displays it; the extracted value is clamped into [0,100] (a 150 match
displays 100, and the clamp is bounded for every value); and the percentage
path never touches the status phase. -/
theorem percent_extraction_clamping :
    percentSearch (strL "Writing at 0x00010000... (37 %)") = some 37
  ∧ (handleLine initState (strL "Writing at 0x00010000... (37 %)")).percentVal = 37
  ∧ clampPct 150 = 100
  ∧ (handleLine initState (strL "(150%)")).percentVal = 100
  ∧ (∀ n : Nat, clampPct n ≤ 100)
  ∧ (∀ (st : AppState) (line : Str), (handlePercent st line).status = st.status) := by
  refine ⟨by decide, by decide, by decide, by decide, fun n => ?_, handlePercent_status⟩
  unfold clampPct
  omega

/-- Claim C7 (Validation atomicity): the checks run in order — dependency
availability, non-empty port, non-empty firmware path, existing path,
binary sanity — and the first failure makes `start_update` return with that
check's specific reason; whenever validation fails, no queue is created and
no worker is spawned (the start request is rejected). -/
theorem validation_atomicity (e : UiEnv) :
    (e.esptool = false → start_update e = StartResult.rejected msgDeps)
  ∧ (e.esptool = true → stripS e.portVar = [] →
        start_update e = StartResult.rejected msgNoPort)
  ∧ (e.esptool = true → stripS e.portVar ≠ [] → stripS e.fwVar = [] →
        start_update e = StartResult.rejected msgNoFw)
  ∧ (e.esptool = true → stripS e.portVar ≠ [] → stripS e.fwVar ≠ [] →
        pathExists e.fs (e.expanduser (stripS e.fwVar)) = false →
        start_update e
          = StartResult.rejected (msgFwNotFound (e.expanduser (stripS e.fwVar))))
  ∧ (e.esptool = true → stripS e.portVar ≠ [] → stripS e.fwVar ≠ [] →
        pathExists e.fs (e.expanduser (stripS e.fwVar)) = true →
        looks_like_binary e.fs (e.expanduser (stripS e.fwVar)) = false →
        start_update e
          = StartResult.rejected (msgFwNotBinary (e.expanduser (stripS e.fwVar))))
  ∧ ((validate_inputs e).1 = false → ∀ args, start_update e ≠ StartResult.started args) := by
  refine ⟨fun h1 => ?_, fun h1 h2 => ?_, fun h1 h2 h3 => ?_, fun h1 h2 h3 h4 => ?_,
    fun h1 h2 h3 h4 h5 => ?_, fun h args => ?_⟩
  · have hv : validate_inputs e = (false, msgDeps) := by simp [validate_inputs, h1]
    simp [start_update, hv]
  · have hv : validate_inputs e = (false, msgNoPort) := by simp [validate_inputs, h1, h2]
    simp [start_update, hv]
  · have hv : validate_inputs e = (false, msgNoFw) := by simp [validate_inputs, h1, h2, h3]
    simp [start_update, hv]
  · have hv : validate_inputs e = (false, msgFwNotFound (e.expanduser (stripS e.fwVar))) := by
      simp [validate_inputs, h1, h2, h3, h4]
    simp [start_update, hv]
  · have hv : validate_inputs e = (false, msgFwNotBinary (e.expanduser (stripS e.fwVar))) := by
      simp [validate_inputs, h1, h2, h3, h4, h5]
    simp [start_update, hv]
  · simp [start_update, h]

theorem validation_atomicity_witness :
    envNoPort.esptool = true
  ∧ stripS envNoPort.portVar = []
  ∧ start_update envNoPort = StartResult.rejected msgNoPort :=
  ⟨rfl, by decide, (validation_atomicity envNoPort).2.1 rfl (by decide)⟩

/-- Claim C8 (Binary Sanity Check verdict): `looks_like_binary` is false for
a missing path, for a file under 1024 bytes, for a file whose first 256
bytes (lowered) contain an HTML marker, and when reading raises an I/O error
(never propagated); it is true for a large enough file without a marker; in
particular the 2000-byte doctype file is rejected and the 2000-byte
marker-free file is accepted. -/
theorem binary_sanity_check (fs : Str → FsEntry) (p : Str) :
    (fs p = FsEntry.absent → looks_like_binary fs p = false)
  ∧ (∀ n, fs p = FsEntry.readError n → looks_like_binary fs p = false)
  ∧ (∀ bytes, fs p = FsEntry.file bytes → bytes.length < 1024 →
        looks_like_binary fs p = false)
  ∧ (∀ bytes, fs p = FsEntry.file bytes →
        (isSub (strBytes "<html") ((bytes.take 256).map byteLower)
          || isSub (strBytes "<!doctype html") ((bytes.take 256).map byteLower)) = true →
        looks_like_binary fs p = false)
  ∧ (∀ bytes, fs p = FsEntry.file bytes → 1024 ≤ bytes.length →
        (isSub (strBytes "<html") ((bytes.take 256).map byteLower)
          || isSub (strBytes "<!doctype html") ((bytes.take 256).map byteLower)) = false →
        looks_like_binary fs p = true)
  ∧ looks_like_binary (fun _ => FsEntry.file doctypeFile) [] = false
  ∧ looks_like_binary (fun _ => FsEntry.file cleanFile) [] = true := by
  refine ⟨fun h => ?_, fun n h => ?_, fun bytes h hlen => ?_, fun bytes h hm => ?_,
    fun bytes h hlen hm => ?_, doctype_verdict, clean_verdict⟩
  · unfold looks_like_binary
    rw [h]
  · unfold looks_like_binary
    rw [h]
  · rw [looks_like_binary_file fs p bytes h]
    simp [hlen]
  · rw [looks_like_binary_file fs p bytes h, hm]
    by_cases h2 : bytes.length < 1024 <;> simp [h2]
  · rw [looks_like_binary_file fs p bytes h, hm]
    simp [Nat.not_lt.mpr hlen]

theorem binary_sanity_check_witness :
    ((fun _ : Str => FsEntry.absent) [] = FsEntry.absent)
  ∧ looks_like_binary (fun _ => FsEntry.absent) [] = false :=
  ⟨rfl, (binary_sanity_check (fun _ => FsEntry.absent) []).1 rfl⟩

theorem drain_mode (ms : List Msg) : ∀ st : AppState, st.mode = PMode.determinate →
    (drain st ms).mode = PMode.determinate := by
  induction ms with
  | nil => intro st h; exact h
  | cons m ms ih =>
    intro st h
    cases m with
    | done rc => exact pumpMsg_mode st _ h
    | line s => exact ih _ (pumpMsg_mode st _ h)

/-- Claim C9 (Determinate display is sticky): a percentage match switches
the display to determinate, every `_set_percent` call leaves the display
determinate, and once the display is determinate no sequence of drained
messages — lines, percentage updates or the terminal marker — makes it
indeterminate again within the session. -/
theorem determinate_sticky :
    (∀ (st : AppState) (line : Str) (n : Nat), percentSearch line = some n →
        (handleLine st line).mode = PMode.determinate)
  ∧ (∀ (st : AppState) (pct : Nat), (setPercent st pct).mode = PMode.determinate)
  ∧ (∀ (st : AppState) (ms : List Msg), st.mode = PMode.determinate →
        (drain st ms).mode = PMode.determinate) := by
  refine ⟨fun st line n h => ?_, fun st pct => rfl, fun st ms h => drain_mode ms st h⟩
  unfold handleLine
  rw [classify_mode]
  unfold handlePercent
  rw [h]
  rfl

theorem determinate_sticky_witness :
    percentSearch (strL "(5%)") = some 5
  ∧ (handleLine initState (strL "(5%)")).mode = PMode.determinate
  ∧ (setPercent initState 50).mode = PMode.determinate
  ∧ (drain (setPercent initState 50) [Msg.line (strL "Connecting...")]).mode
      = PMode.determinate :=
  ⟨by decide, determinate_sticky.1 initState (strL "(5%)") 5 (by decide), rfl,
    determinate_sticky.2.2 (setPercent initState 50) [Msg.line (strL "Connecting...")] rfl⟩

/-- Claim C10 (Empty-line skip): a drained non-marker message that is empty
after stripping trailing carriage returns is neither logged nor classified —
the foreground state is exactly unchanged. -/
theorem empty_line_skip (st : AppState) (s : Str) (h : rstripCR s = []) :
    pumpMsg st (Msg.line s) = st := by
  simp [pumpMsg, h]

theorem empty_line_skip_witness :
    rstripCR (strL "\r\r") = []
  ∧ pumpMsg initState (Msg.line (strL "\r\r")) = initState :=
  ⟨by decide, empty_line_skip initState (strL "\r\r") (by decide)⟩
